import Mathlib

/-
Shallow embedding of the provisioning core of pytest-ansible-network-integration
(src/pytest_ansible_network_integration/defs.py and __init__.py).

Text is modelled as List Char.  Remote command outputs are inputs to the
embedded functions: each function that in Python runs a command via SSH or a
subprocess takes the stdout (and where relevant stderr) of that command as an
argument, or a fetch function indexed by the polling attempt number.
Logging calls have no observable effect and are not modelled; the commands a
function issues are collected in an explicit list where a claim depends on
them.
-/

/-- Python str whitespace for the purposes of str.split() and the regex
class \s over the inputs at hand: space, tab, newline, carriage return,
vertical tab, form feed. -/
def isPySpace (c : Char) : Bool :=
  c = ' ' || c = '\t' || c = '\n' || c = '\r' || c = Char.ofNat 11 || c = Char.ofNat 12

/-- Helper for str.splitlines: accumulates the current line (reversed) and
splits at \n, \r\n and \r. -/
def splitlinesAux : List Char → List Char → List (List Char)
  | [], acc => if acc.isEmpty then [] else [acc.reverse]
  | '\r' :: '\n' :: rest, acc => acc.reverse :: splitlinesAux rest []
  | '\n' :: rest, acc => acc.reverse :: splitlinesAux rest []
  | '\r' :: rest, acc => acc.reverse :: splitlinesAux rest []
  | c :: rest, acc => splitlinesAux rest (c :: acc)

/-- Python str.splitlines() over the line terminators \n, \r\n and \r
(the terminators that occur in the command outputs being parsed).
A trailing terminator does not produce a final empty line. -/
def splitlines (s : List Char) : List (List Char) :=
  splitlinesAux s []

/-- Helper for str.split() with no separator: whitespace runs separate
fields, leading and trailing whitespace is dropped, no empty fields. -/
def pySplitAux : List Char → List Char → List (List Char)
  | [], cur => if cur.isEmpty then [] else [cur.reverse]
  | c :: rest, cur =>
    if isPySpace c then
      if cur.isEmpty then pySplitAux rest [] else cur.reverse :: pySplitAux rest []
    else pySplitAux rest (c :: cur)

/-- Python str.split() with no arguments. -/
def pySplit (s : List Char) : List (List Char) :=
  pySplitAux s []

/-- Lookup in a Python dict built by a comprehension from a sequence of
(key, value) pairs: a later binding of the same key overwrites an earlier
one, so lookup finds the last binding. -/
def dictLookup (entries : List (List Char × List Char)) (k : List Char) :
    Option (List Char) :=
  match entries with
  | [] => none
  | e :: rest =>
    match dictLookup rest k with
    | some v => some v
    | none => if e.1 = k then some e.2 else none

namespace VirshWrapper

/-- One row of `sudo virsh net-dhcp-leases default` output, defs.py lines
387-392: the row is accepted only if line.split() has exactly 7 fields, in
which case field index 2 (the MAC) is mapped to field index 4 with
everything from the first '/' on stripped (p[4].split("/")[0]).  The
surrounding try/except for IndexError/ValueError in the source is
unreachable: the length guard is evaluated before the subscripts. -/
def parseRow (line : List Char) : Option (List Char × List Char) :=
  let p := pySplit line
  if p.length = 7 then
    some (p.getD 2 [], (p.getD 4 []).takeWhile (fun c => c ≠ '/'))
  else none

/-- The dict comprehension of defs.py lines 388-392, applied to the already
split lines of the lease-table text. -/
def leasesOfLines (lines : List (List Char)) : List (List Char × List Char) :=
  lines.filterMap parseRow

/-- Parse the full lease-table stdout into the MAC-to-IP association
(defs.py lines 388-392): splitlines, then the row comprehension. -/
def parseLeases (stdout : List Char) : List (List Char × List Char) :=
  leasesOfLines (splitlines stdout)

/-- defs.py line 399: ips = [leases[mac] for mac in macs if mac in leases].
Membership in a dict holds exactly when lookup succeeds. -/
def resolveIps (leases : List (List Char × List Char)) (macs : List (List Char)) :
    List (List Char) :=
  macs.filterMap (fun mac => dictLookup leases mac)

/-- Result of the polling loop of _find_dhcp_lease: either the nonempty list
of resolved IPs, or the PytestNetworkError "Could not find IPs" raised after
the recorded number of attempts. -/
inductive LeaseSearch where
  | found (ips : List (List Char))
  | notFound (attempts : Nat)
deriving DecidableEq

/-- The while loop of _find_dhcp_lease (defs.py lines 377-412).  attempt is
the Python counter; the remaining fuel keeps the loop guard
attempt < max_attempts: fuel = max_attempts - attempt.  fetch n is the
stdout of `sudo virsh net-dhcp-leases default` on polling attempt n.  The
time.sleep(10) between attempts has no observable effect. -/
def findLeaseAux (macs : List (List Char)) (fetch : Nat → List Char) :
    Nat → Nat → LeaseSearch
  | attempt, 0 => .notFound attempt
  | attempt, fuel + 1 =>
    let ips := resolveIps (parseLeases (fetch attempt)) macs
    if ips.isEmpty then findLeaseAux macs fetch (attempt + 1) fuel
    else .found ips

/-- VirshWrapper._find_dhcp_lease (defs.py lines 369-412). -/
def find_dhcp_lease (macs : List (List Char)) (fetch : Nat → List Char)
    (max_attempts : Nat) : LeaseSearch :=
  findLeaseAux macs fetch 0 max_attempts

/-- The Python default for the max_attempts parameter of _find_dhcp_lease;
get_dhcp_lease calls it with this budget (defs.py line 297). -/
def find_dhcp_lease_default_attempts : Nat := 100

/-- Outcome of get_dhcp_lease: the returned IP, the PytestNetworkError
"Found more than one IP", or the PytestNetworkError "Could not find IPs"
propagated from _find_dhcp_lease. -/
inductive DhcpLease where
  | ip (address : List Char)
  | ambiguousError
  | notFoundError (attempts : Nat)
deriving DecidableEq

/-- VirshWrapper.get_dhcp_lease (defs.py lines 280-305) from the point where
the MAC addresses of the lab domain are known: the initial time.sleep(600),
_find_current_lab and _extract_macs are modelled separately.  ips[0] on the
nonempty found list is headD. -/
def get_dhcp_lease (macs : List (List Char)) (fetch : Nat → List Char)
    (max_attempts : Nat) : DhcpLease :=
  match find_dhcp_lease macs fetch max_attempts with
  | .notFound a => .notFoundError a
  | .found ips => if ips.length > 1 then .ambiguousError else .ip (ips.headD [])

end VirshWrapper

namespace CmlWrapper

/-- After the literal "ID: " the pattern of defs.py lines 159 and 175
continues (?P<id>\S+)\)\n: a greedy nonempty nonspace run, backtracking
until a literal ')' and a newline follow.  The candidate group length
starts at the full nonspace run and decreases. -/
def matchGroupAux (s : List Char) : Nat → Option (List Char)
  | 0 => none
  | k + 1 =>
    if (s.drop (k + 1)).take 2 = [')', '\n'] then some (s.take (k + 1))
    else matchGroupAux s k

/-- Match (?P<id>\S+)\)\n against the text s that follows "ID: ", returning
the captured group. -/
def matchGroup (s : List Char) : Option (List Char) :=
  matchGroupAux s ((s.takeWhile (fun c => !isPySpace c)).length)

/-- re.match(r".*ID: (?P<id>\S+)\)\n", stdout, re.DOTALL) of defs.py lines
159 and 175, returning the captured id group.  Under DOTALL the leading
greedy .* makes the rightmost position whose tail matches
"ID: " (?P<id>\S+)\)\n win, so later positions are tried before earlier
ones; the match only needs to cover a prefix of the text, trailing
content after the newline is ignored. -/
def findIdMatch : List Char → Option (List Char)
  | [] => none
  | c :: cs =>
    match findIdMatch cs with
    | some t => some t
    | none =>
      if (c :: cs).take 4 = "ID: ".data then matchGroup ((c :: cs).drop 4) else none

/-- Result of CmlWrapper.bring_up: either the recorded lab id together with
the _lab_existed flag, or the PytestNetworkError of defs.py line 179.  cmds
collects the arguments of the self._run calls that were issued, in order.
The KeyError handler of lines 183-186 is unreachable (the group id always
exists in a successful match), and the GITHUB_ACTIONS environment-file
append of lines 190-193 issues no command and is outside the modelled
scope. -/
inductive BringUpResult where
  | ok (current_lab_id : List Char) (lab_existed : Bool) (cmds : List (List Char))
  | err (msg : List Char) (cmds : List (List Char))
deriving DecidableEq

/-- CmlWrapper.bring_up (defs.py lines 146-193).  idStdout/idStderr are the
streams of the "id" status command, upStdout/upStderr those of the
"up -f file" command (executed only when the status output adopts no
existing lab). -/
def bring_up (file idStdout _idStderr upStdout upStderr : List Char) : BringUpResult :=
  let idCmd : List Char := "id".data
  let adopt : Option (List Char) :=
    if idStdout.isEmpty then none else findIdMatch idStdout
  match adopt with
  | some labId => .ok labId true [idCmd]
  | none =>
    let upCmd : List Char := "up -f ".data ++ file
    match findIdMatch upStdout with
    | none =>
      .err ("Could not get lab ID: ".data ++ upStdout ++ ' ' :: upStderr) [idCmd, upCmd]
    | some labId => .ok labId false [idCmd, upCmd]

/-- The state of a CmlWrapper relevant to remove(): the recorded lab id and
the _lab_existed flag. -/
structure CmlState where
  current_lab_id : List Char
  lab_existed : Bool
deriving DecidableEq

/-- CmlWrapper.remove (defs.py lines 195-214): commands issued and resulting
state.  A pre-existing lab only produces a log reminder; otherwise the
"use --id <id>" and "rm --force --no-confirm" commands run.  remove never
assigns any attribute, so the state is returned unchanged in both
branches. -/
def remove (st : CmlState) : List (List Char) × CmlState :=
  if st.lab_existed then ([], st)
  else (["use --id ".data ++ st.current_lab_id, "rm --force --no-confirm".data], st)

end CmlWrapper

namespace VirshWrapper

/-- re.match(r"^\s(?P<id>\d+)", line) of defs.py line 324: exactly one
whitespace character at the start of the line, then the greedy maximal
nonempty run of digits, which is the captured id. -/
def lineIdMatch (line : List Char) : Option (List Char) :=
  match line with
  | [] => none
  | c :: rest =>
    if isPySpace c then
      let ds := rest.takeWhile Char.isDigit
      if ds.isEmpty then none else some ds
    else none

/-- The remote outputs _find_current_lab observes: listAll n is the stdout
of `sudo virsh list --all` on attempt n, dump n id the stdout of
`sudo virsh dumpxml <id>` on attempt n for domain id. -/
structure VirshEnv where
  listAll : Nat → List Char
  dump : Nat → List Char → List Char

/-- The virsh ids extracted on attempt n (defs.py lines 324-332): one regex
match per line; `if not any(virsh_matches)` is the emptiness of this list,
and the id list keeps captured groups in line order.  The KeyError handler
of lines 333-336 is unreachable. -/
def attemptIds (env : VirshEnv) (n : Nat) : List (List Char) :=
  (splitlines (env.listAll n)).filterMap lineIdMatch

/-- Python `needle in hay` on strings: needle occurs contiguously in
hay. -/
def isSubOf (needle : List Char) : List Char → Bool
  | [] => needle.isEmpty
  | c :: rest => needle.isPrefixOf (c :: rest) || isSubOf needle rest

/-- defs.py lines 338-343: dump each id in order and return the first dump
stdout containing the lab id as a substring. -/
def firstMatchingDump (labId : List Char) (env : VirshEnv) (n : Nat) :
    List (List Char) → Option (List Char)
  | [] => none
  | vid :: rest =>
    let out := env.dump n vid
    if isSubOf labId out then some out else firstMatchingDump labId env n rest

/-- Result of _find_current_lab: the dumpxml stdout handed to
xmltodict.parse together with the attempt on which it was found, the
PytestNetworkError "No matching virsh IDs found" raised inside an attempt
(defs.py line 327), or the PytestNetworkError "Could not find current lab"
raised after the attempt budget is exhausted (line 349). -/
inductive LabSearch where
  | foundLab (xml : List Char) (attempt : Nat)
  | noVirshIds (attempt : Nat)
  | exhausted (attempts : Nat)
deriving DecidableEq

/-- The while loop of _find_current_lab (defs.py lines 315-349), fuel =
max_attempts - attempt as in findLeaseAux; the time.sleep(5) between
attempts has no observable effect. -/
def find_current_lab_aux (labId : List Char) (env : VirshEnv) :
    Nat → Nat → LabSearch
  | attempt, 0 => .exhausted attempt
  | attempt, fuel + 1 =>
    let ids := attemptIds env attempt
    if ids.isEmpty then .noVirshIds attempt
    else
      match firstMatchingDump labId env attempt ids with
      | some xml => .foundLab xml attempt
      | none => find_current_lab_aux labId env (attempt + 1) fuel

/-- VirshWrapper._find_current_lab (defs.py lines 307-349). -/
def find_current_lab (labId : List Char) (env : VirshEnv) (max_attempts : Nat) :
    LabSearch :=
  find_current_lab_aux labId env 0 max_attempts

end VirshWrapper

/-- The values xmltodict.parse produces: strings, mappings, lists of child
elements, and None for empty elements. -/
inductive XVal where
  | s (text : List Char)
  | dict (entries : List (List Char × XVal))
  | arr (items : List XVal)
  | null

/-- The Python exceptions the extraction code can raise: KeyError from a
missing dict key, TypeError from subscripting or iterating a value that
does not support it. -/
inductive PyErr where
  | keyError (k : List Char)
  | typeError

/-- First binding of a key in a dict (keys produced by xmltodict are
unique). -/
def lookupKey (k : List Char) : List (List Char × XVal) → Option XVal
  | [] => none
  | e :: rest => if e.1 = k then some e.2 else lookupKey k rest

/-- Python v[k] for a string key k: only a dict supports it; a missing key
raises KeyError, and subscripting a str, a list or None raises TypeError. -/
def getItem (v : XVal) (k : List Char) : Except PyErr XVal :=
  match v with
  | .dict entries =>
    match lookupKey k entries with
    | some w => .ok w
    | none => .error (.keyError k)
  | _ => .error .typeError

/-- Python iteration `for x in v`: a list yields its items, a dict yields
its keys as strings, a str yields its one-character substrings, and None
raises TypeError. -/
def pyIter (v : XVal) : Except PyErr (List XVal) :=
  match v with
  | .arr items => .ok items
  | .dict entries => .ok (entries.map (fun e => XVal.s e.1))
  | .s cs => .ok (cs.map (fun c => XVal.s [c]))
  | .null => .error .typeError

/-- The list comprehension of VirshWrapper._extract_macs (defs.py lines
359-362): current_lab["domain"]["devices"]["interface"] is evaluated, the
result iterated, and interface["mac"]["@address"] collected per element,
propagating the first Python exception raised. -/
def extract_macs_raw (current_lab : XVal) : Except PyErr (List XVal) := do
  let domain ← getItem current_lab "domain".data
  let devices ← getItem domain "devices".data
  let interfaces ← getItem devices "interface".data
  let items ← pyIter interfaces
  items.mapM (fun itf => do
    let mac ← getItem itf "mac".data
    getItem mac "@address".data)

/-- Outcome of VirshWrapper._extract_macs as seen by its caller: the MAC
list, a PytestNetworkError (the only exception the function converts), or a
Python exception of another type escaping unhandled. -/
inductive ExtractResult where
  | ok (macs : List XVal)
  | pytestError (key : List Char)
  | uncaughtTypeError

/-- VirshWrapper._extract_macs (defs.py lines 351-367): only KeyError is
caught and re-raised as PytestNetworkError (message
"Failed to extract MAC addresses: <key>"); any TypeError from the
comprehension escapes with its own type. -/
def extract_macs (current_lab : XVal) : ExtractResult :=
  match extract_macs_raw current_lab with
  | .ok ms => .ok ms
  | .error (.keyError k) => .pytestError k
  | .error .typeError => .uncaughtTypeError

/-- Outcome of a virsh.get_dhcp_lease call as an exception class:
PytestNetworkError, or LibsshSessionException from the SSH layer (which is
not a PytestNetworkError). -/
inductive LeaseCallOutcome where
  | ok
  | pytestErr
  | sshErr
deriving DecidableEq

/-- The failure modes that parameterise one run of the
_appliance_dhcp_address fixture. -/
structure OrchInput where
  optionsPresent : Bool
  labFileExists : Bool
  bringUpRaises : Bool
  labPreExisted : Bool
  virshInitRaises : Bool
  leaseOutcome : LeaseCallOutcome
deriving DecidableEq

/-- The observable actions of the fixture, in program order. -/
inductive OrchEvent where
  | cmlBringUp
  | virshConnect
  | virshGetLease
  | virshClose
  | cmlRemove
  | yieldAddress
deriving DecidableEq

/-- How the fixture terminates: normally after teardown, with a
PytestNetworkError, with the SSH-layer exception, or with the
UnboundLocalError (a NameError) raised by the finally block when it
evaluates virsh.close() while the local virsh was never bound. -/
inductive OrchOutcome where
  | completed
  | pytestError
  | sshError
  | nameError
deriving DecidableEq

/-- The _appliance_dhcp_address fixture (__init__.py lines 319-389) as a
trace of events.  Control flow: a try block raises PytestNetworkError for
missing options or lab file, calls cml.bring_up, constructs VirshWrapper
(whose __init__ connects over SSH and can raise LibsshSessionException),
and calls virsh.get_dhcp_lease inside an inner try whose except clause
(PytestNetworkError only) closes virsh, removes the lab and re-raises; the
outer except clause catches only PytestNetworkError and re-raises; the
finally block always evaluates virsh.close(), which raises
UnboundLocalError when virsh was never assigned, replacing any in-flight
exception.  On success the address is yielded and cml.remove() runs after
the tests. -/
def appliance_dhcp_address (inp : OrchInput) : List OrchEvent × OrchOutcome :=
  if !inp.optionsPresent then ([], .nameError)
  else if !inp.labFileExists then ([], .nameError)
  else if inp.bringUpRaises then ([.cmlBringUp], .nameError)
  else if inp.virshInitRaises then ([.cmlBringUp, .virshConnect], .nameError)
  else
    match inp.leaseOutcome with
    | .pytestErr =>
      ([.cmlBringUp, .virshConnect, .virshGetLease, .virshClose, .cmlRemove,
        .virshClose], .pytestError)
    | .sshErr =>
      ([.cmlBringUp, .virshConnect, .virshGetLease, .virshClose], .sshError)
    | .ok =>
      ([.cmlBringUp, .virshConnect, .virshGetLease, .virshClose, .yieldAddress,
        .cmlRemove], .completed)

/-- Whether this run created a lab of its own: bring_up succeeded and did
not adopt a pre-existing lab. -/
def labCreated (inp : OrchInput) : Bool :=
  inp.optionsPresent && inp.labFileExists && !inp.bringUpRaises && !inp.labPreExisted

/-- The lease-table row of the specification scenario: 7 whitespace
separated fields with the MAC at index 2 and the CIDR-suffixed IP at
index 4. -/
def c1Text : List Char := "1  2  52:54:00:AA  x  10.0.0.5/24  y  z".data

/-- The target MAC of the specification scenario. -/
def c1Mac : List Char := "52:54:00:AA".data

/-- First target MAC of the shared-IP lease table. -/
def c2MacA : List Char := "52:54:00:00:00:aa".data

/-- Second target MAC of the shared-IP lease table. -/
def c2MacB : List Char := "52:54:00:00:00:bb".data

/-- A lease table in which both target MACs are leased the same IP address:
two well-formed 7-field rows resolving to 192.168.122.10. -/
def c2Text : List Char :=
  ("2024-01-01 10:00 52:54:00:00:00:aa ipv4 192.168.122.10/24 hosta 01\n" ++
   "2024-01-01 10:00 52:54:00:00:00:bb ipv4 192.168.122.10/24 hostb 02").data

/-- A malformed lease row: 3 fields instead of 7. -/
def c7BadRow : List Char := "1 2 3".data

/-- A well-formed lease row with 7 fields. -/
def c7GoodRow : List Char := "1  2  52:54:00:AA  x  10.0.0.5/24  y  z".data

/-- A status-command output in the shape of the example of defs.py line
174. -/
def c4IdStdout : List Char := "Starting lab xxx (ID: 9fde5f)\n".data

/-- A virsh environment whose domain listing never contains a line starting
with a whitespace character followed by digits. -/
def c10Env : VirshWrapper.VirshEnv :=
  ⟨fun _ => "error: failed to connect".data, fun _ _ => []⟩

/-- The xmltodict result for a domain with exactly one interface element:
xmltodict parses a single child element as a dict, not as a one-element
list, so "interface" maps to the interface dict directly. -/
def singleInterfaceLab : XVal :=
  .dict [("domain".data, .dict [("devices".data, .dict [("interface".data,
    .dict [("mac".data, .dict [("@address".data,
      .s "52:54:00:00:00:01".data)])])])])]

/-- Fixture run in which options and lab file are fine, bring_up creates a
new lab, and the SSH connection of VirshWrapper.__init__ fails with
LibsshSessionException. -/
def orchSshFailInput : OrchInput :=
  ⟨true, true, false, false, true, .ok⟩

/-
Theorems.
-/

/-- filterMap of a function returning none everywhere on the list is
empty. -/
theorem filterMap_eq_nil_of_none {α β : Type} {f : α → Option β}
    {l : List α} (h : ∀ x ∈ l, f x = none) : l.filterMap f = [] := by
  induction l with
  | nil => rfl
  | cons a t ih =>
    rw [List.filterMap_cons, h a (by simp)]
    exact ih (fun x hx => h x (by simp [hx]))

/-- filterMap over a duplicate-free list on which exactly one element is
productive yields exactly that element's image. -/
theorem filterMap_eq_singleton {α β : Type} {f : α → Option β}
    {l : List α} {a : α} {b : β}
    (hnd : l.Nodup) (ha : a ∈ l) (hfa : f a = some b)
    (hother : ∀ x ∈ l, x ≠ a → f x = none) :
    l.filterMap f = [b] := by
  induction l with
  | nil => simp at ha
  | cons h t ih =>
    rw [List.nodup_cons] at hnd
    rcases List.mem_cons.mp ha with rfl | hat
    · rw [List.filterMap_cons, hfa]
      have hnil : t.filterMap f = [] :=
        filterMap_eq_nil_of_none
          (fun x hx => hother x (by simp [hx]) (by rintro rfl; exact hnd.1 hx))
      rw [hnil]
    · have hha : h ≠ a := by rintro rfl; exact hnd.1 hat
      rw [List.filterMap_cons, hother h (by simp) hha]
      exact ih hnd.2 hat (fun x hx hxa => hother x (by simp [hx]) hxa)

/-- When every polling attempt resolves no IP, the lease loop walks its
whole remaining fuel and reports the final counter value. -/
theorem findLeaseAux_all_empty (macs : List (List Char)) (fetch : Nat → List Char)
    (h : ∀ n, VirshWrapper.resolveIps (VirshWrapper.parseLeases (fetch n)) macs = []) :
    ∀ (fuel attempt : Nat),
      VirshWrapper.findLeaseAux macs fetch attempt fuel =
        .notFound (attempt + fuel) := by
  intro fuel
  induction fuel with
  | zero => intro a; simp [VirshWrapper.findLeaseAux]
  | succ f ih =>
    intro a
    have hstep : VirshWrapper.findLeaseAux macs fetch a (f + 1) =
        VirshWrapper.findLeaseAux macs fetch (a + 1) f := by
      simp [VirshWrapper.findLeaseAux, h a]
    rw [hstep, ih (a + 1)]
    congr 1
    omega

/-- C6: if every lease-table fetch yields a mapping in which no target MAC
resolves, _find_dhcp_lease performs exactly max_attempts polling attempts
(each loop iteration advances the attempt counter by one) and then raises
the not-found PytestNetworkError with the attempt counter equal to the
configured budget; get_dhcp_lease invokes it with the default budget
100. -/
theorem find_dhcp_lease_exhausts_attempts (macs : List (List Char))
    (fetch : Nat → List Char) (max_attempts : Nat)
    (h : ∀ n, VirshWrapper.resolveIps (VirshWrapper.parseLeases (fetch n)) macs = []) :
    VirshWrapper.find_dhcp_lease macs fetch max_attempts = .notFound max_attempts ∧
    VirshWrapper.find_dhcp_lease_default_attempts = 100 := by
  refine ⟨?_, rfl⟩
  have hall := findLeaseAux_all_empty macs fetch h max_attempts 0
  simpa [VirshWrapper.find_dhcp_lease] using hall

/-- Witness for C6: an always-empty lease table exhausts the default budget
of 100 attempts. -/
theorem find_dhcp_lease_exhausts_attempts_witness :
    VirshWrapper.find_dhcp_lease ["52:54:00:aa:bb:cc".data] (fun _ => []) 100 =
      .notFound 100 ∧
    VirshWrapper.find_dhcp_lease_default_attempts = 100 :=
  find_dhcp_lease_exhausts_attempts ["52:54:00:aa:bb:cc".data] (fun _ => []) 100
    (fun _ => rfl)

/-- C7: a lease-table row that does not split into exactly 7
whitespace-delimited fields is silently excluded from the parsed mapping
(the mapping is as if the row were absent, and no error is raised: the
parse is total); a row with exactly 7 fields contributes its field at
index 2 mapped to its field at index 4 with everything from the first '/'
on stripped; and parsing lease-table text is exactly this row parse over
its split lines. -/
theorem parseLeases_row_behavior (pre post : List (List Char)) (line : List Char) :
    ((pySplit line).length ≠ 7 →
      VirshWrapper.leasesOfLines (pre ++ line :: post) =
        VirshWrapper.leasesOfLines (pre ++ post)) ∧
    (∀ f0 f1 f2 f3 f4 f5 f6, pySplit line = [f0, f1, f2, f3, f4, f5, f6] →
      VirshWrapper.leasesOfLines (pre ++ line :: post) =
        VirshWrapper.leasesOfLines pre ++
          (f2, f4.takeWhile (fun c => c ≠ '/')) :: VirshWrapper.leasesOfLines post) ∧
    (∀ text, VirshWrapper.parseLeases text =
      VirshWrapper.leasesOfLines (splitlines text)) := by
  refine ⟨?_, ?_, fun _ => rfl⟩
  · intro h7
    have hrow : VirshWrapper.parseRow line = none := by
      simp [VirshWrapper.parseRow, h7]
    simp [VirshWrapper.leasesOfLines, List.filterMap_append, List.filterMap_cons, hrow]
  · intro f0 f1 f2 f3 f4 f5 f6 hsp
    have hrow : VirshWrapper.parseRow line =
        some (f2, f4.takeWhile (fun c => c ≠ '/')) := by
      simp [VirshWrapper.parseRow, hsp]
    simp [VirshWrapper.leasesOfLines, List.filterMap_append, List.filterMap_cons, hrow]

/-- Witness for C7: a 3-field row is dropped from the mapping while the
7-field row next to it survives. -/
theorem parseLeases_row_behavior_witness :
    (pySplit c7BadRow).length ≠ 7 ∧
    VirshWrapper.leasesOfLines ([] ++ c7BadRow :: [c7GoodRow]) =
      VirshWrapper.leasesOfLines ([] ++ [c7GoodRow]) :=
  ⟨by decide, (parseLeases_row_behavior [] [c7GoodRow] c7BadRow).1 (by decide)⟩

/-- C1: for a duplicate-free list of target MACs and a lease-table text
whose parsed MAC-to-IP mapping contains exactly one of them (bound to ip,
the already CIDR-stripped value the mapping stores for it), get_dhcp_lease
returns exactly that ip. -/
theorem get_dhcp_lease_unique_mac (macs : List (List Char))
    (text mac ip : List Char) (max_attempts : Nat)
    (hnd : macs.Nodup) (hmem : mac ∈ macs)
    (hfind : dictLookup (VirshWrapper.parseLeases text) mac = some ip)
    (honly : ∀ m ∈ macs, m ≠ mac →
      dictLookup (VirshWrapper.parseLeases text) m = none)
    (hpos : 0 < max_attempts) :
    VirshWrapper.get_dhcp_lease macs (fun _ => text) max_attempts = .ip ip := by
  have hips : VirshWrapper.resolveIps (VirshWrapper.parseLeases text) macs = [ip] :=
    filterMap_eq_singleton hnd hmem hfind honly
  obtain ⟨f, rfl⟩ : ∃ f, max_attempts = f + 1 := ⟨max_attempts - 1, by omega⟩
  simp [VirshWrapper.get_dhcp_lease, VirshWrapper.find_dhcp_lease,
    VirshWrapper.findLeaseAux, hips]

/-- Witness for C1: the specification scenario row resolves MAC
52:54:00:AA to 10.0.0.5 with the /24 suffix stripped. -/
theorem get_dhcp_lease_unique_mac_witness :
    VirshWrapper.get_dhcp_lease [c1Mac] (fun _ => c1Text) 100 =
      .ip "10.0.0.5".data :=
  get_dhcp_lease_unique_mac [c1Mac] c1Text c1Mac "10.0.0.5".data 100
    (by decide) (by decide) (by decide)
    (by intro m hm hne; simp [c1Mac] at hm; simp [hm, c1Mac] at hne) (by decide)

/-- Counterexample for C2: both target MACs resolve, to one and the same
distinct IP address 192.168.122.10, yet get_dhcp_lease raises the
"Found more than one IP" PytestNetworkError instead of returning that IP:
the code compares len(ips) with 1 over resolved occurrences and never
deduplicates. -/
theorem get_dhcp_lease_same_ip_counterexample :
    (VirshWrapper.resolveIps (VirshWrapper.parseLeases c2Text)
        [c2MacA, c2MacB]).dedup = ["192.168.122.10".data] ∧
    VirshWrapper.get_dhcp_lease [c2MacA, c2MacB] (fun _ => c2Text) 100 =
      .ambiguousError := by
  constructor <;> decide

/-- C2 amended: get_dhcp_lease raises the fatal ambiguity error exactly
when more than one target-MAC occurrence resolves in the lease mapping,
even if all occurrences resolve to the same IP address; the IP is returned
only when exactly one occurrence resolves. -/
theorem get_dhcp_lease_occurrence_ambiguity (macs : List (List Char))
    (text : List Char) (max_attempts : Nat) (hpos : 0 < max_attempts)
    (hne : VirshWrapper.resolveIps (VirshWrapper.parseLeases text) macs ≠ []) :
    (VirshWrapper.get_dhcp_lease macs (fun _ => text) max_attempts = .ambiguousError ↔
      1 < (VirshWrapper.resolveIps (VirshWrapper.parseLeases text) macs).length) ∧
    (∀ ip, VirshWrapper.resolveIps (VirshWrapper.parseLeases text) macs = [ip] →
      VirshWrapper.get_dhcp_lease macs (fun _ => text) max_attempts = .ip ip) := by
  obtain ⟨f, rfl⟩ : ∃ f, max_attempts = f + 1 := ⟨max_attempts - 1, by omega⟩
  obtain ⟨x, xs, hx⟩ : ∃ x xs,
      VirshWrapper.resolveIps (VirshWrapper.parseLeases text) macs = x :: xs := by
    cases hr : VirshWrapper.resolveIps (VirshWrapper.parseLeases text) macs with
    | nil => exact absurd hr hne
    | cons x xs => exact ⟨x, xs, rfl⟩
  have hfind : VirshWrapper.find_dhcp_lease macs (fun _ => text) (f + 1) =
      .found (x :: xs) := by
    simp [VirshWrapper.find_dhcp_lease, VirshWrapper.findLeaseAux, hx]
  constructor
  · rw [hx]
    rcases xs with _ | ⟨y, ys⟩
    · simp [VirshWrapper.get_dhcp_lease, hfind]
    · simp [VirshWrapper.get_dhcp_lease, hfind]
  · intro ip hip
    rw [hip] at hx
    cases hx
    simp [VirshWrapper.get_dhcp_lease, hfind]

/-- Witness for C2 amended: the shared-IP lease table has two resolved
occurrences, so the ambiguity error fires. -/
theorem get_dhcp_lease_occurrence_ambiguity_witness :
    (VirshWrapper.get_dhcp_lease [c2MacA, c2MacB] (fun _ => c2Text) 100 =
        .ambiguousError ↔
      1 < (VirshWrapper.resolveIps (VirshWrapper.parseLeases c2Text)
        [c2MacA, c2MacB]).length) ∧
    (∀ ip, VirshWrapper.resolveIps (VirshWrapper.parseLeases c2Text)
        [c2MacA, c2MacB] = [ip] →
      VirshWrapper.get_dhcp_lease [c2MacA, c2MacB] (fun _ => c2Text) 100 = .ip ip) :=
  get_dhcp_lease_occurrence_ambiguity [c2MacA, c2MacB] c2Text 100
    (by decide) (by decide)

/-- A list whose first two elements are known decomposes as a double
cons. -/
theorem take_two_cons : ∀ {l : List Char} {x y : Char},
    l.take 2 = [x, y] → ∃ r, l = x :: y :: r
  | [], x, y, h => by
    exact absurd (show ([] : List Char) = [x, y] from h) (by simp)
  | [a], x, y, h => by
    have h' : [a] = [x, y] := h
    injection h' with h1 h2
    exact absurd h2 (by simp)
  | a :: b :: r, x, y, h => by
    have h' : a :: b :: ([] : List Char) = [x, y] := h
    injection h' with h1 h2
    injection h2 with h2 h3
    exact ⟨r, by rw [h1, h2]⟩

/-- Elements of a take within the takeWhile run all satisfy the
predicate. -/
theorem all_of_take_le_takeWhile {p : Char → Bool} :
    ∀ (s : List Char) (m : Nat), m ≤ (s.takeWhile p).length →
      ∀ c ∈ s.take m, p c = true := by
  intro s
  induction s with
  | nil => intro m _ c hc; simp at hc
  | cons a u ih =>
    intro m hm c hc
    cases m with
    | zero => simp at hc
    | succ k =>
      by_cases hp : p a
      · rw [List.takeWhile_cons_of_pos hp] at hm
        simp only [List.length_cons, Nat.succ_le_succ_iff] at hm
        rw [List.take_succ_cons] at hc
        rcases List.mem_cons.mp hc with rfl | hcu
        · exact hp
        · exact ih k hm c hcu
      · rw [List.takeWhile_cons_of_neg hp] at hm
        simp at hm

/-- Soundness of the group matcher: a successful match decomposes its input
into the nonempty nonspace captured group followed by ')' and a
newline. -/
theorem matchGroupAux_sound {s : List Char} :
    ∀ {k : Nat} {t : List Char},
      k ≤ (s.takeWhile (fun c => !isPySpace c)).length →
      CmlWrapper.matchGroupAux s k = some t →
      ∃ b, s = t ++ ')' :: '\n' :: b ∧ t ≠ [] ∧ ∀ c ∈ t, isPySpace c = false := by
  intro k
  induction k with
  | zero => intro t _ h; simp [CmlWrapper.matchGroupAux] at h
  | succ k ih =>
    intro t hk h
    rw [CmlWrapper.matchGroupAux] at h
    split at h
    case isTrue hcond =>
      injection h with h
      subst h
      obtain ⟨r, hr⟩ := take_two_cons hcond
      refine ⟨r, ?_, ?_, ?_⟩
      · conv_lhs => rw [← List.take_append_drop (k + 1) s]
        rw [hr]
      · cases s with
        | nil => simp at hr
        | cons a u => simp [List.take_succ_cons]
      · intro c hc
        have := all_of_take_le_takeWhile s (k + 1) hk c hc
        simpa using this
    case isFalse hcond =>
      exact ih (Nat.le_of_succ_le hk) h

/-- Soundness of matchGroup. -/
theorem matchGroup_sound {s t : List Char}
    (h : CmlWrapper.matchGroup s = some t) :
    ∃ b, s = t ++ ')' :: '\n' :: b ∧ t ≠ [] ∧ ∀ c ∈ t, isPySpace c = false :=
  matchGroupAux_sound (Nat.le_refl _) h

/-- Soundness of the embedded regex match: a captured id means the status
output contains "ID: " followed by the nonempty nonspace id, a closing
parenthesis and a newline. -/
theorem findIdMatch_sound :
    ∀ {s t : List Char}, CmlWrapper.findIdMatch s = some t →
      ∃ a b, s = a ++ "ID: ".data ++ t ++ ')' :: '\n' :: b ∧ t ≠ [] ∧
        ∀ c ∈ t, isPySpace c = false := by
  intro s
  induction s with
  | nil => intro t h; simp [CmlWrapper.findIdMatch] at h
  | cons c cs ih =>
    intro t h
    rw [CmlWrapper.findIdMatch] at h
    cases hrec : CmlWrapper.findIdMatch cs with
    | some t' =>
      rw [hrec] at h
      have h' : t' = t := by
        have : some t' = some t := h
        injection this
      subst h'
      obtain ⟨a, b, hs, hne, hsp⟩ := ih hrec
      exact ⟨c :: a, b, by rw [hs]; simp, hne, hsp⟩
    | none =>
      rw [hrec] at h
      have h' : (if (c :: cs).take 4 = "ID: ".data
          then CmlWrapper.matchGroup ((c :: cs).drop 4) else none) = some t := h
      split at h'
      case isTrue htake =>
        obtain ⟨b, hb, hne, hsp⟩ := matchGroup_sound h'
        refine ⟨[], b, ?_, hne, hsp⟩
        have hsplit : c :: cs = "ID: ".data ++ (c :: cs).drop 4 := by
          conv_lhs => rw [← List.take_append_drop 4 (c :: cs)]
          rw [htake]
        rw [hsplit, hb]
        simp
      case isFalse => simp at h'

/-- takeWhile passes over a block of elements that all satisfy the
predicate. -/
theorem takeWhile_append_all {p : Char → Bool} :
    ∀ {t : List Char}, (∀ c ∈ t, p c = true) →
      ∀ r, List.takeWhile p (t ++ r) = t ++ List.takeWhile p r := by
  intro t
  induction t with
  | nil => intro _ r; simp
  | cons a u ih =>
    intro h r
    have hpa : p a = true := h a (by simp)
    rw [List.cons_append, List.takeWhile_cons_of_pos hpa,
      ih (fun c hc => h c (by simp [hc])) r, List.cons_append]

/-- Completeness of the group matcher: a nonempty nonspace id followed by
')' and a newline is captured exactly. -/
theorem matchGroup_complete {t b : List Char} (hne : t ≠ [])
    (hsp : ∀ c ∈ t, isPySpace c = false) :
    CmlWrapper.matchGroup (t ++ ')' :: '\n' :: b) = some t := by
  obtain ⟨m, hm⟩ : ∃ m, t.length = m + 1 := by
    cases ht : t with
    | nil => exact absurd ht hne
    | cons x u => exact ⟨u.length, by simp⟩
  have hrun : (t ++ ')' :: '\n' :: b).takeWhile (fun c => !isPySpace c) =
      t ++ [')'] := by
    rw [takeWhile_append_all (fun c hc => by simp [hsp c hc])]
    rfl
  rw [CmlWrapper.matchGroup, hrun]
  have hlen : (t ++ [')']).length = t.length + 1 := by simp
  rw [hlen, hm]
  rw [CmlWrapper.matchGroupAux]
  have hfirst : ((t ++ ')' :: '\n' :: b).drop (m + 1 + 1)).take 2 ≠ [')', '\n'] := by
    have hd : (t ++ ')' :: '\n' :: b).drop (m + 1 + 1) = '\n' :: b := by
      have hshape : t ++ ')' :: '\n' :: b = (t ++ [')']) ++ '\n' :: b := by simp
      rw [hshape, show m + 1 + 1 = (t ++ [')']).length by simp [hm],
        List.drop_left]
    rw [hd]
    cases b <;> simp
  rw [if_neg hfirst, CmlWrapper.matchGroupAux]
  have hsecond : ((t ++ ')' :: '\n' :: b).drop (m + 1)).take 2 = [')', '\n'] := by
    rw [show m + 1 = t.length from hm.symm, List.drop_left]
    rfl
  rw [if_pos hsecond]
  rw [show m + 1 = t.length from hm.symm, List.take_left]

/-- Completeness of the embedded regex match: any occurrence of
"ID: " id ")" newline (id nonempty, nonspace) in the text makes the match
succeed. -/
theorem findIdMatch_complete :
    ∀ (a : List Char) {t b : List Char}, t ≠ [] →
      (∀ c ∈ t, isPySpace c = false) →
      (CmlWrapper.findIdMatch (a ++ "ID: ".data ++ t ++ ')' :: '\n' :: b)).isSome = true := by
  intro a
  induction a with
  | nil =>
    intro t b hne hsp
    have hshape : ([] : List Char) ++ "ID: ".data ++ t ++ ')' :: '\n' :: b =
        'I' :: ('D' :: ':' :: ' ' :: (t ++ ')' :: '\n' :: b)) := by simp
    rw [hshape, CmlWrapper.findIdMatch]
    cases hrec : CmlWrapper.findIdMatch ('D' :: ':' :: ' ' :: (t ++ ')' :: '\n' :: b)) with
    | some t' => simp
    | none =>
      simp only []
      have htake : ('I' :: ('D' :: ':' :: ' ' :: (t ++ ')' :: '\n' :: b))).take 4 =
          "ID: ".data := rfl
      rw [if_pos htake]
      have hdrop : ('I' :: ('D' :: ':' :: ' ' :: (t ++ ')' :: '\n' :: b))).drop 4 =
          t ++ ')' :: '\n' :: b := rfl
      rw [hdrop, matchGroup_complete hne hsp]
      rfl
  | cons c a' ih =>
    intro t b hne hsp
    have hshape : (c :: a') ++ "ID: ".data ++ t ++ ')' :: '\n' :: b =
        c :: (a' ++ "ID: ".data ++ t ++ ')' :: '\n' :: b) := by simp
    rw [hshape, CmlWrapper.findIdMatch]
    cases hrec : CmlWrapper.findIdMatch (a' ++ "ID: ".data ++ t ++ ')' :: '\n' :: b) with
    | some t' => simp
    | none =>
      have := ih hne hsp (b := b)
      rw [hrec] at this
      simp at this

/-- C4: when the status-command output matches the ID-extraction pattern
with captured token t — which by soundness of the embedded regex means the
output contains "ID: " followed by the nonempty nonspace token, a closing
parenthesis and a newline — bring_up records exactly t as the current lab
id, marks the lab as pre-existing, and issues only the "id" command (no
"up" command). -/
theorem bring_up_existing_lab
    (file idStdout idStderr upStdout upStderr t : List Char)
    (hmatch : CmlWrapper.findIdMatch idStdout = some t) :
    CmlWrapper.bring_up file idStdout idStderr upStdout upStderr =
      .ok t true ["id".data] ∧
    ∃ a b, idStdout = a ++ "ID: ".data ++ t ++ ')' :: '\n' :: b ∧ t ≠ [] ∧
      ∀ c ∈ t, isPySpace c = false := by
  constructor
  · have hne : idStdout.isEmpty = false := by
      cases idStdout with
      | nil => simp [CmlWrapper.findIdMatch] at hmatch
      | cons c cs => rfl
    simp [CmlWrapper.bring_up, hne, hmatch]
  · exact findIdMatch_sound hmatch

/-- Witness for C4: the example output of defs.py line 174 adopts lab id
9fde5f as a pre-existing lab with only the "id" command issued. -/
theorem bring_up_existing_lab_witness :
    CmlWrapper.bring_up "lab.yaml".data c4IdStdout [] [] [] =
      .ok "9fde5f".data true ["id".data] :=
  (bring_up_existing_lab "lab.yaml".data c4IdStdout [] [] [] "9fde5f".data
    (by decide)).1

/-- C5: when the status phase adopts no lab and the "up" command output
does not match the ID-extraction pattern (equivalently, by completeness of
the embedded regex, contains no "ID: " token ")" newline occurrence at
all), bring_up raises the PytestNetworkError whose message contains both
the captured stdout and stderr of the "up" command. -/
theorem bring_up_no_match_error
    (file idStdout idStderr upStdout upStderr : List Char)
    (hid : CmlWrapper.findIdMatch idStdout = none)
    (hup : CmlWrapper.findIdMatch upStdout = none) :
    CmlWrapper.bring_up file idStdout idStderr upStdout upStderr =
      .err ("Could not get lab ID: ".data ++ upStdout ++ ' ' :: upStderr)
        ["id".data, "up -f ".data ++ file] ∧
    (∃ a b, "Could not get lab ID: ".data ++ upStdout ++ ' ' :: upStderr =
      a ++ upStdout ++ b) ∧
    (∃ a b, "Could not get lab ID: ".data ++ upStdout ++ ' ' :: upStderr =
      a ++ upStderr ++ b) ∧
    (∀ a t b, t ≠ [] → (∀ c ∈ t, isPySpace c = false) →
      upStdout ≠ a ++ "ID: ".data ++ t ++ ')' :: '\n' :: b) := by
  refine ⟨?_, ⟨"Could not get lab ID: ".data, ' ' :: upStderr, rfl⟩,
    ⟨"Could not get lab ID: ".data ++ upStdout ++ [' '], [], by simp⟩, ?_⟩
  · cases hemp : idStdout.isEmpty with
    | true => simp [CmlWrapper.bring_up, hemp, hup]
    | false => simp [CmlWrapper.bring_up, hemp, hid, hup]
  · intro a t b hne hsp heq
    have hc := findIdMatch_complete a hne hsp (b := b)
    rw [← heq, hup] at hc
    simp at hc

/-- Witness for C5: an empty status output and an "up" output with no ID
pattern produce the error carrying both streams. -/
theorem bring_up_no_match_error_witness :
    CmlWrapper.bring_up "lab.yaml".data [] [] "boom".data "err1".data =
      .err ("Could not get lab ID: ".data ++ "boom".data ++ ' ' :: "err1".data)
        ["id".data, "up -f ".data ++ "lab.yaml".data] :=
  (bring_up_no_match_error "lab.yaml".data [] [] "boom".data "err1".data
    rfl (by decide)).1

/-- C9: calling remove() on a pre-existing lab issues no commands (neither
"use --id" nor "rm --force --no-confirm") and leaves the recorded lab id
(indeed the whole state) unchanged. -/
theorem remove_preexisting_lab (st : CmlWrapper.CmlState)
    (h : st.lab_existed = true) :
    CmlWrapper.remove st = ([], st) ∧
    ((CmlWrapper.remove st).2).current_lab_id = st.current_lab_id := by
  constructor
  · simp [CmlWrapper.remove, h]
  · simp [CmlWrapper.remove, h]

/-- Witness for C9 at a concrete pre-existing lab state. -/
theorem remove_preexisting_lab_witness :
    CmlWrapper.remove ⟨"9fde5f".data, true⟩ = ([], ⟨"9fde5f".data, true⟩) :=
  (remove_preexisting_lab ⟨"9fde5f".data, true⟩ rfl).1

/-- The domain-discovery loop reaches attempt a + d when the d prior
attempts each had virsh ids but no matching dump, and then fails fast if
that attempt's listing has no id line. -/
theorem find_current_lab_aux_reaches (labId : List Char)
    (env : VirshWrapper.VirshEnv) :
    ∀ (d a fuel : Nat), d < fuel →
      (∀ k, a ≤ k → k < a + d →
        (VirshWrapper.attemptIds env k).isEmpty = false ∧
        VirshWrapper.firstMatchingDump labId env k
          (VirshWrapper.attemptIds env k) = none) →
      (VirshWrapper.attemptIds env (a + d)).isEmpty = true →
      VirshWrapper.find_current_lab_aux labId env a fuel = .noVirshIds (a + d) := by
  intro d
  induction d with
  | zero =>
    intro a fuel hf _ hids
    obtain ⟨f, rfl⟩ : ∃ f, fuel = f + 1 := ⟨fuel - 1, by omega⟩
    simp only [Nat.add_zero] at hids
    simp [VirshWrapper.find_current_lab_aux, hids]
  | succ d ih =>
    intro a fuel hf hprev hids
    obtain ⟨f, rfl⟩ : ∃ f, fuel = f + 1 := ⟨fuel - 1, by omega⟩
    have ha := hprev a (Nat.le_refl a) (by omega)
    have hstep : VirshWrapper.find_current_lab_aux labId env a (f + 1) =
        VirshWrapper.find_current_lab_aux labId env (a + 1) f := by
      simp [VirshWrapper.find_current_lab_aux, ha.1, ha.2]
    have hrec := ih (a + 1) f (by omega)
      (fun k hk1 hk2 => hprev k (by omega) (by omega))
      (by rw [show a + 1 + d = a + (d + 1) by omega]; exact hids)
    rw [hstep, hrec, show a + 1 + d = a + (d + 1) by omega]

/-- C10: if the domain-discovery loop reaches attempt n (every earlier
attempt found id lines but no dump containing the lab id) and on attempt n
the `virsh list --all` output has no line starting with a whitespace
character followed by digits, _find_current_lab raises the
"No matching virsh IDs found" PytestNetworkError immediately on attempt n,
for any remaining budget max_attempts > n — it does not go on to consume
the remaining attempts (which would end in the distinct exhaustion
error). -/
theorem find_current_lab_no_ids_fails_fast (labId : List Char)
    (env : VirshWrapper.VirshEnv) (max_attempts n : Nat)
    (hn : n < max_attempts)
    (hprev : ∀ k, k < n →
      (VirshWrapper.attemptIds env k).isEmpty = false ∧
      VirshWrapper.firstMatchingDump labId env k
        (VirshWrapper.attemptIds env k) = none)
    (hids : (VirshWrapper.attemptIds env n).isEmpty = true) :
    VirshWrapper.find_current_lab labId env max_attempts = .noVirshIds n := by
  have h0 := find_current_lab_aux_reaches labId env n 0 max_attempts (by omega)
    (fun k hk1 hk2 => hprev k (by omega)) (by simpa using hids)
  simpa [VirshWrapper.find_current_lab] using h0

/-- Witness for C10: a listing with no id line fails on the very first of
the 20 budgeted attempts. -/
theorem find_current_lab_no_ids_fails_fast_witness :
    VirshWrapper.find_current_lab "9fde5f".data c10Env 20 = .noVirshIds 0 :=
  find_current_lab_no_ids_fails_fast "9fde5f".data c10Env 20 0 (by decide)
    (fun k hk => absurd hk (Nat.not_lt_zero k)) (by decide)

/-- C8 evaluation: on the single-interface domain descriptor — which lacks
the expected list structure at domain.devices.interface[*] because
xmltodict yields a dict for a single child — _extract_macs terminates with
an uncaught TypeError (iterating the dict yields the key string "mac",
and subscripting that string raises TypeError, which the except KeyError
handler does not catch), not with the PytestNetworkError the claim
requires. -/
theorem extract_macs_single_interface_uncaught :
    extract_macs singleInterfaceLab = .uncaughtTypeError := rfl

/-- C3 evaluation: in the run where bring_up created a fresh lab and the
SSH connection of VirshWrapper.__init__ then failed, the fixture never
calls cml.remove() — the created lab leaks — and terminates with the
UnboundLocalError from the finally block's virsh.close() instead of
releasing a session; this contradicts the claim that teardown of a created
lab is attempted on every exit path. -/
theorem appliance_dhcp_address_leaks_lab :
    labCreated orchSshFailInput = true ∧
    appliance_dhcp_address orchSshFailInput =
      ([.cmlBringUp, .virshConnect], .nameError) ∧
    OrchEvent.cmlRemove ∉ (appliance_dhcp_address orchSshFailInput).1 := by
  refine ⟨rfl, rfl, by decide⟩
